import Mathlib

/-!
Shallow embedding of `baccarat.py` (Punto Banco round engine): cards, the
multi-deck shoe with auto-refill, hands with modulo-10 values, the third-card
rules, and the `Game` round state machine.  Python exceptions are modelled by
an explicit error type; `random.shuffle` is modelled by an arbitrary function
`ρ : List Card → List Card` together with the hypothesis that it permutes its
input (the contract of a shuffle).
-/

/-- Exceptions raised by the source, one constructor per distinct raise site
that the embedded operations can reach.  `invalidDeckCount` is the
`ValueError('Number of decks must be positive.')` in `Shoe.__init__`;
`notACard` is the `TypeError('Not a valid Card type object.')` in
`Hand.add_cards`; `gameIsRunning` / `gameNotRunning` / `naturalPresent` are
the three `GameError` raise sites of `Game`; `attributeNone` models a Python
`AttributeError` from accessing a method of a `None` hand; `indexError`
models `list.pop` / indexing on a too-short list. -/
inductive Err where
  | invalidDeckCount
  | notACard
  | gameIsRunning
  | gameNotRunning
  | naturalPresent
  | attributeNone
  | indexError
  deriving DecidableEq, Repr

/-- Card ranks, source list `RANKS = ['ace', 2, ..., 10, 'jack', 'queen', 'king']`. -/
inductive Rank where
  | ace | two | three | four | five | six | seven | eight | nine | ten
  | jack | queen | king
  deriving DecidableEq, Repr, Fintype

/-- Card suits, source list `SUITS = ['hearts', 'spades', 'clubs', 'diamonds']`. -/
inductive Suit where
  | hearts | spades | clubs | diamonds
  deriving DecidableEq, Repr, Fintype

/-- A playing card (rank/suit pair).  Rank and suit validation in
`Card.__init__` is subsumed by the `Rank`/`Suit` types. -/
structure Card where
  rank : Rank
  suit : Suit
  deriving DecidableEq, Repr, Fintype

/-- Baccarat point value of a card, from `Card.__init__`:
`rank if rank in range(2, 10) else 1 if rank == 'ace' else 0`. -/
def Card.value (c : Card) : Nat :=
  match c.rank with
  | .ace => 1
  | .two => 2
  | .three => 3
  | .four => 4
  | .five => 5
  | .six => 6
  | .seven => 7
  | .eight => 8
  | .nine => 9
  | .ten | .jack | .queen | .king => 0

/-- Source order of `SUITS`. -/
def SUITS : List Suit := [.hearts, .spades, .clubs, .diamonds]

/-- Source order of `RANKS`. -/
def RANKS : List Rank :=
  [.ace, .two, .three, .four, .five, .six, .seven, .eight, .nine, .ten,
   .jack, .queen, .king]

/-- One 52-card deck in the append order of `Shoe.add_decks`
(`for suit in SUITS: for rank in RANKS: append`). -/
def oneDeck : List Card :=
  SUITS.flatMap (fun su => RANKS.map (fun rk => Card.mk rk su))

/-- The cards appended by the `for i in range(num_decks)` loop of
`Shoe.add_decks`: `n` copies of `oneDeck`. -/
def freshDecks : Nat → List Card
  | 0 => []
  | n + 1 => oneDeck ++ freshDecks n

/-- State of a `Shoe` object: its card list and its `_num_decks` field. -/
structure ShoeState where
  cards : List Card
  num_decks : Nat
  deriving DecidableEq, Repr

/-- Property of a shuffle function: `random.shuffle` rearranges the list in
place, so its result is a permutation of its input. -/
def ShuffleSpec (ρ : List Card → List Card) : Prop :=
  ∀ l : List Card, (ρ l).Perm l

/-- `Shoe.add_decks(num_decks=None)`: `if not num_decks: num_decks =
self._num_decks` (so `None` and `0` both fall back to the stored count),
append `num_decks` fresh decks, then `random.shuffle` the whole pool. -/
def addDecks (ρ : List Card → List Card) (s : ShoeState) (nd : Option Nat) :
    ShoeState :=
  let n := match nd with
    | none => s.num_decks
    | some k => if k = 0 then s.num_decks else k
  { s with cards := ρ (s.cards ++ freshDecks n) }

/-- `Shoe.__init__(num_decks)`: rejects a non-positive count with
`ValueError`, otherwise starts from an empty card list and calls
`add_decks()`.  (The `isinstance(num_decks, int)` check is subsumed by the
`Nat` type.) -/
def Shoe.init (ρ : List Card → List Card) (num_decks : Nat) :
    Except Err ShoeState :=
  if num_decks < 1 then .error .invalidDeckCount
  else .ok (addDecks ρ { cards := [], num_decks := num_decks } none)

/-- One iteration of the `Shoe.draw_cards` loop body: refill (and count the
`Refilling shoe...` event) when the pool is observed empty, then `pop()` the
last card.  `pop` on an empty list is Python's `IndexError`.  Returns the
popped card, the new shoe state and the number of refill events (0 or 1). -/
def drawOne (ρ : List Card → List Card) (s : ShoeState) :
    Except Err Card × ShoeState × Nat :=
  let s₁ := if s.cards.isEmpty then addDecks ρ s none else s
  let r := if s.cards.isEmpty then 1 else 0
  match s₁.cards.getLast? with
  | none => (.error .indexError, s₁, r)
  | some c => (.ok c, { s₁ with cards := s₁.cards.dropLast }, r)

/-- `Shoe.draw_cards(num_cards)`: repeat `drawOne` `num_cards` times,
collecting the popped cards in draw order.  The third component counts the
refill events that occurred. -/
def drawCards (ρ : List Card → List Card) :
    ShoeState → Nat → Except Err (List Card) × ShoeState × Nat
  | s, 0 => (.ok [], s, 0)
  | s, n + 1 =>
    match drawOne ρ s with
    | (.error e, s₁, r) => (.error e, s₁, r)
    | (.ok c, s₁, r) =>
      match drawCards ρ s₁ n with
      | (.ok cs, s₂, r') => (.ok (c :: cs), s₂, r + r')
      | (.error e, s₂, r') => (.error e, s₂, r + r')

/-- A Python object handed to `Hand.add_cards`: either an actual `Card` or
some other object (which trips the `isinstance` check). -/
inductive PyObj where
  | card (c : Card)
  | other
  deriving DecidableEq, Repr

/-- `Hand.add_cards(cards)` as written in the source: walk the list, raise
`TypeError` at the first element that is not a `Card`, append the rest one
by one onto the hand. -/
def Hand.addCardsChecked : List Card → List PyObj → Except Err (List Card)
  | acc, [] => .ok acc
  | acc, .card c :: rest => Hand.addCardsChecked (acc ++ [c]) rest
  | _, .other :: _ => .error .notACard

/-- `Hand.__init__(cards)`: `self._cards = []` then `self.add_cards(cards)`.
There is no size check of any kind. -/
def Hand.init (cs : List PyObj) : Except Err (List Card) :=
  Hand.addCardsChecked [] cs

/-- `Hand.add_cards` specialised to statically-typed `Card` lists, where the
`isinstance` `TypeError` cannot fire (see `Hand.addCardsChecked_map_ok`):
it just appends.  The `Game` methods use this form. -/
def Hand.addCards (h cs : List Card) : List Card := h ++ cs

/-- `Hand.value`: `sum(self._cards)` where `Card.__add__`/`__radd__` compute
`(self._value + other) % 10`, so Python folds with `(card.value + acc) % 10`
starting from the integer `0`. -/
def Hand.value (h : List Card) : Nat :=
  h.foldl (fun acc c => (c.value + acc) % 10) 0

/-- `Hand.is_natural()`: `len(self._cards) == 2 and 8 <= self.value <= 9`. -/
def Hand.isNatural (h : List Card) : Bool :=
  decide (h.length = 2) && decide (8 ≤ Hand.value h) && decide (Hand.value h ≤ 9)

/-- `Punto.draw_third()`: `len == 2` and `0 <= value <= 5`. -/
def Punto.drawThird (h : List Card) : Bool :=
  decide (h.length = 2) && decide (Hand.value h ≤ 5)

/-- The `third_card_rules` dictionary of `Banco.draw_third` (keys 3–6; other
keys are never looked up because of the `3 <= self.value <= 6` guard). -/
def thirdCardRules : Nat → List Nat
  | 3 => [0, 1, 2, 3, 4, 5, 6, 7, 9]
  | 4 => [2, 3, 4, 5, 6, 7]
  | 5 => [4, 5, 6, 7]
  | 6 => [6, 7]
  | _ => []

/-- `Banco.draw_third(player_third=None)`: with 2 cards and a (truthy) punto
third card, draw on value 0–2, consult `third_card_rules` on value 3–6,
stand otherwise; with no punto third card, draw on value 0–5; with any other
card count, return `False`.  (The `isinstance(player_third, Card)` check is
subsumed by the `Option Card` type.) -/
def Banco.drawThird (h : List Card) (playerThird : Option Card) : Bool :=
  if h.length = 2 then
    match playerThird with
    | some c =>
      if Hand.value h ≤ 2 then true
      else if 3 ≤ Hand.value h ∧ Hand.value h ≤ 6 then
        (thirdCardRules (Hand.value h)).contains c.value
      else false
    | none => if Hand.value h ≤ 5 then true else false
  else false

/-- Identifier of the hand recorded in `Game.draw_thirds`' result list. -/
inductive HandId where
  | punto
  | banco
  deriving DecidableEq, Repr

/-- Result of `Game.game_result()`. -/
inductive Outcome where
  | punto
  | banco
  | tie
  deriving DecidableEq, Repr

/-- State of a `Game` object: the `_game_running` flag, the optional hands
(`None` before the first deal) and the shoe.  The `_players` list is betting
bookkeeping never read by the round engine and is omitted. -/
structure GameState where
  game_running : Bool
  punto : Option (List Card)
  banco : Option (List Card)
  shoe : ShoeState
  deriving DecidableEq, Repr

/-- `Game.deal_hands()`: fail with `GameError('Game is running')` when a
round is active, otherwise draw 2 cards for Punto, then 2 for Banco, and set
the round active.  Each method returns its result (or raised error) together
with the object state as it stands at that point, since Python exceptions do
not roll back mutations. -/
def Game.dealHands (ρ : List Card → List Card) (s : GameState) :
    Except Err Unit × GameState :=
  if s.game_running then (.error .gameIsRunning, s)
  else
    match drawCards ρ s.shoe 2 with
    | (.error e, sh, _) => (.error e, { s with shoe := sh })
    | (.ok pc, sh₁, _) =>
      match drawCards ρ sh₁ 2 with
      | (.error e, sh₂, _) =>
        (.error e, { s with punto := some (Hand.addCards [] pc), shoe := sh₂ })
      | (.ok bc, sh₂, _) =>
        (.ok (), { s with
          punto := some (Hand.addCards [] pc),
          banco := some (Hand.addCards [] bc),
          shoe := sh₂,
          game_running := true })

/-- `Game.is_natural()`: fail with `GameError('Game is not running.')` when
no round is active; otherwise evaluate
`self._punto.is_natural() or self._banco.is_natural()` (with Python's
short-circuit: the banco hand is only touched when punto is not natural) and
close the round when a natural is present. -/
def Game.isNatural (s : GameState) : Except Err Bool × GameState :=
  if s.game_running then
    match s.punto with
    | none => (.error .attributeNone, s)
    | some p =>
      if Hand.isNatural p then (.ok true, { s with game_running := false })
      else
        match s.banco with
        | none => (.error .attributeNone, s)
        | some b =>
          if Hand.isNatural b then (.ok true, { s with game_running := false })
          else (.ok false, s)
  else (.error .gameNotRunning, s)

/-- `Game.draw_thirds()`: fail when no round is active; fail with
`GameError("Can't draw third cards when there is a natural.")` when
`self.is_natural()` reports a natural (note: that call has already closed
the round); otherwise apply the third-card sequence, recording
`self._punto.cards[2]` / `self._banco.cards[2]` for each draw, close the
round and return the records. -/
def Game.drawThirds (ρ : List Card → List Card) (s : GameState) :
    Except Err (List (HandId × Card)) × GameState :=
  if s.game_running then
    match Game.isNatural s with
    | (.error e, s₁) => (.error e, s₁)
    | (.ok true, s₁) => (.error .naturalPresent, s₁)
    | (.ok false, s₁) =>
      match s₁.punto, s₁.banco with
      | some p, some b =>
        if Punto.drawThird p then
          match drawCards ρ s₁.shoe 1 with
          | (.error e, sh, _) => (.error e, { s₁ with shoe := sh })
          | (.ok cs, sh, _) =>
            let p' := Hand.addCards p cs
            match p'[2]? with
            | none => (.error .indexError, { s₁ with punto := some p', shoe := sh })
            | some pc3 =>
              if Banco.drawThird b (some pc3) then
                match drawCards ρ sh 1 with
                | (.error e, sh', _) =>
                  (.error e, { s₁ with punto := some p', shoe := sh' })
                | (.ok cs', sh', _) =>
                  let b' := Hand.addCards b cs'
                  match b'[2]? with
                  | none =>
                    (.error .indexError,
                     { s₁ with punto := some p', banco := some b', shoe := sh' })
                  | some bc3 =>
                    (.ok [(HandId.punto, pc3), (HandId.banco, bc3)],
                     { s₁ with punto := some p', banco := some b', shoe := sh',
                               game_running := false })
              else
                (.ok [(HandId.punto, pc3)],
                 { s₁ with punto := some p', shoe := sh, game_running := false })
        else if Banco.drawThird b none then
          match drawCards ρ s₁.shoe 1 with
          | (.error e, sh, _) => (.error e, { s₁ with shoe := sh })
          | (.ok cs, sh, _) =>
            let b' := Hand.addCards b cs
            match b'[2]? with
            | none => (.error .indexError, { s₁ with banco := some b', shoe := sh })
            | some bc3 =>
              (.ok [(HandId.banco, bc3)],
               { s₁ with banco := some b', shoe := sh, game_running := false })
        else (.ok [], { s₁ with game_running := false })
      | _, _ => (.error .attributeNone, s₁)
  else (.error .gameNotRunning, s)

/-- `Game.game_result()`: fail with `GameError('Game is running.')` while a
round is active; otherwise compare the two hand values.  The method only
reads attributes, so the state is returned unchanged. -/
def Game.gameResult (s : GameState) : Except Err Outcome × GameState :=
  if s.game_running then (.error .gameIsRunning, s)
  else
    match s.punto, s.banco with
    | some p, some b =>
      (.ok (if Hand.value p > Hand.value b then Outcome.punto
            else if Hand.value p < Hand.value b then Outcome.banco
            else Outcome.tie), s)
    | _, _ => (.error .attributeNone, s)

/-! ### Basic facts about card and hand values -/

lemma cardValue_le_nine (c : Card) : c.value ≤ 9 := by
  cases h : c.rank <;> simp [Card.value, h]

lemma Hand.value_foldl (l : List Card) :
    ∀ acc : Nat,
      l.foldl (fun acc c => (c.value + acc) % 10) (acc % 10)
        = ((l.map Card.value).sum + acc) % 10 := by
  induction l with
  | nil => intro acc; simp
  | cons c t ih =>
    intro acc
    have h1 : (c.value + acc % 10) % 10 = (c.value + acc) % 10 := by omega
    have h2 := ih (c.value + acc)
    simp only [List.foldl_cons, h1, h2, List.map_cons, List.sum_cons]
    omega

lemma Hand.value_eq_sum (h : List Card) :
    Hand.value h = (h.map Card.value).sum % 10 := by
  have := Hand.value_foldl h 0
  simpa [Hand.value] using this

lemma Hand.value_le_nine (h : List Card) : Hand.value h ≤ 9 := by
  rw [Hand.value_eq_sum]
  omega

lemma Hand.addCardsChecked_map_ok :
    ∀ (cs : List Card) (acc : List Card),
      Hand.addCardsChecked acc (cs.map PyObj.card) = .ok (acc ++ cs) := by
  intro cs
  induction cs with
  | nil => intro acc; simp [Hand.addCardsChecked]
  | cons c t ih =>
    intro acc
    simp only [List.map_cons, Hand.addCardsChecked, ih]
    simp

/-! ### Numeric core of the Banco third-card table -/

lemma banco_table_core (v w : Nat) (hv : v ≤ 9) (hw : w ≤ 9) :
    ((if v ≤ 2 then true
      else if 3 ≤ v ∧ v ≤ 6 then (thirdCardRules v).contains w
      else false) = true
     ↔ (v ≤ 2
        ∨ (v = 3 ∧ w ≠ 8)
        ∨ (v = 4 ∧ (2 ≤ w ∧ w ≤ 7))
        ∨ (v = 5 ∧ (4 ≤ w ∧ w ≤ 7))
        ∨ (v = 6 ∧ (6 ≤ w ∧ w ≤ 7)))) := by
  interval_cases v <;> interval_cases w <;> decide

/-! ### Claims about hands and third-card rules -/

/-- C2 counterexample: constructing a `Hand` from a list of three `Card`s
does not fail — it succeeds and yields a 3-card hand, so there is no
`InvalidHandSize` check at construction. -/
theorem hand_init_three_cards_succeeds :
    Hand.init [PyObj.card ⟨.two, .hearts⟩, PyObj.card ⟨.three, .hearts⟩,
               PyObj.card ⟨.four, .hearts⟩]
      = .ok [⟨.two, .hearts⟩, ⟨.three, .hearts⟩, ⟨.four, .hearts⟩] := by
  rfl

/-- C2 (amended): constructing a `Hand` (hence a `Punto` or `Banco`) from any
list of `Card`s succeeds with exactly those cards, whatever the length; the
only construction-time check is the per-element `isinstance` type check. -/
theorem hand_init_any_length (cs : List Card) :
    Hand.init (cs.map PyObj.card) = .ok cs := by
  simpa using Hand.addCardsChecked_map_ok cs []

/-- C7: `Punto.draw_third()` returns true iff the hand has exactly 2 cards
and its value lies in [0, 5]; in particular it is false for 2-card values
6–9 and for any 3-card hand. -/
theorem punto_drawThird_iff (h : List Card) :
    Punto.drawThird h = true ↔ (h.length = 2 ∧ Hand.value h ≤ 5) := by
  simp [Punto.drawThird]

/-- C8: for every hand of 2 or 3 cards, `Hand.value` is the sum of the
cards' point values modulo 10, hence lies in [0, 9]; and the point values
are Ace = 1, ranks 2–9 at face value, 10/Jack/Queen/King = 0. -/
theorem hand_value_spec (h : List Card) (hlen : h.length = 2 ∨ h.length = 3) :
    Hand.value h = (h.map Card.value).sum % 10 ∧ Hand.value h ≤ 9 ∧
    (∀ su : Suit,
      (Card.mk .ace su).value = 1 ∧ (Card.mk .two su).value = 2 ∧
      (Card.mk .three su).value = 3 ∧ (Card.mk .four su).value = 4 ∧
      (Card.mk .five su).value = 5 ∧ (Card.mk .six su).value = 6 ∧
      (Card.mk .seven su).value = 7 ∧ (Card.mk .eight su).value = 8 ∧
      (Card.mk .nine su).value = 9 ∧ (Card.mk .ten su).value = 0 ∧
      (Card.mk .jack su).value = 0 ∧ (Card.mk .queen su).value = 0 ∧
      (Card.mk .king su).value = 0) := by
  refine ⟨Hand.value_eq_sum h, Hand.value_le_nine h, ?_⟩
  decide

/-- C8 witness at a concrete 2-card hand. -/
theorem hand_value_spec_witness :
    ([⟨.seven, .hearts⟩, ⟨.five, .spades⟩] : List Card).length = 2 ∧
    (Hand.value [⟨.seven, .hearts⟩, ⟨.five, .spades⟩]
        = (([⟨.seven, .hearts⟩, ⟨.five, .spades⟩] : List Card).map Card.value).sum % 10 ∧
     Hand.value [⟨.seven, .hearts⟩, ⟨.five, .spades⟩] ≤ 9 ∧
     (∀ su : Suit,
       (Card.mk .ace su).value = 1 ∧ (Card.mk .two su).value = 2 ∧
       (Card.mk .three su).value = 3 ∧ (Card.mk .four su).value = 4 ∧
       (Card.mk .five su).value = 5 ∧ (Card.mk .six su).value = 6 ∧
       (Card.mk .seven su).value = 7 ∧ (Card.mk .eight su).value = 8 ∧
       (Card.mk .nine su).value = 9 ∧ (Card.mk .ten su).value = 0 ∧
       (Card.mk .jack su).value = 0 ∧ (Card.mk .queen su).value = 0 ∧
       (Card.mk .king su).value = 0)) :=
  ⟨by decide, hand_value_spec [⟨.seven, .hearts⟩, ⟨.five, .spades⟩] (Or.inl (by decide))⟩

/-- C3: the Banco third-card decision follows the tie-break table exactly:
with 2 cards and the punto third card present, value 0–2 always draws,
value 3 draws unless the punto third card's point value is 8, value 4 draws
iff it is in {2,...,7}, value 5 iff in {4,...,7}, value 6 iff in {6,7}, and
values 7–9 never draw; with the punto third card absent it draws iff the
value is in [0,5]; with 3 cards it returns false. -/
theorem banco_drawThird_table (h : List Card) (c : Card) (t : Option Card) :
    (h.length = 2 →
      ((Banco.drawThird h (some c) = true ↔
        (Hand.value h ≤ 2
         ∨ (Hand.value h = 3 ∧ c.value ≠ 8)
         ∨ (Hand.value h = 4 ∧ (2 ≤ c.value ∧ c.value ≤ 7))
         ∨ (Hand.value h = 5 ∧ (4 ≤ c.value ∧ c.value ≤ 7))
         ∨ (Hand.value h = 6 ∧ (6 ≤ c.value ∧ c.value ≤ 7))))
       ∧ (Banco.drawThird h none = true ↔ Hand.value h ≤ 5)))
    ∧ (h.length = 3 → Banco.drawThird h t = false) := by
  constructor
  · intro hlen
    constructor
    · have hv := Hand.value_le_nine h
      have hw := cardValue_le_nine c
      have hcore := banco_table_core (Hand.value h) c.value hv hw
      simpa [Banco.drawThird, hlen] using hcore
    · simp only [Banco.drawThird, hlen, if_true]
      by_cases h5 : Hand.value h ≤ 5 <;> simp [h5]
  · intro hlen
    simp [Banco.drawThird, hlen]

/-- C3 witness: Banco hand of value 3 facing a punto third card of point
value 8 (table says stand), and the same hand drawing with no punto third
card; a 3-card Banco hand never draws. -/
theorem banco_drawThird_table_witness :
    (([⟨.king, .hearts⟩, ⟨.three, .spades⟩] : List Card).length = 2 →
      ((Banco.drawThird [⟨.king, .hearts⟩, ⟨.three, .spades⟩] (some ⟨.eight, .clubs⟩) = true ↔
        (Hand.value [⟨.king, .hearts⟩, ⟨.three, .spades⟩] ≤ 2
         ∨ (Hand.value [⟨.king, .hearts⟩, ⟨.three, .spades⟩] = 3 ∧ (Card.mk .eight .clubs).value ≠ 8)
         ∨ (Hand.value [⟨.king, .hearts⟩, ⟨.three, .spades⟩] = 4 ∧
             (2 ≤ (Card.mk .eight .clubs).value ∧ (Card.mk .eight .clubs).value ≤ 7))
         ∨ (Hand.value [⟨.king, .hearts⟩, ⟨.three, .spades⟩] = 5 ∧
             (4 ≤ (Card.mk .eight .clubs).value ∧ (Card.mk .eight .clubs).value ≤ 7))
         ∨ (Hand.value [⟨.king, .hearts⟩, ⟨.three, .spades⟩] = 6 ∧
             (6 ≤ (Card.mk .eight .clubs).value ∧ (Card.mk .eight .clubs).value ≤ 7))))
       ∧ (Banco.drawThird [⟨.king, .hearts⟩, ⟨.three, .spades⟩] none = true ↔
           Hand.value [⟨.king, .hearts⟩, ⟨.three, .spades⟩] ≤ 5)))
    ∧ (([⟨.king, .hearts⟩, ⟨.three, .spades⟩] : List Card).length = 3 →
        Banco.drawThird [⟨.king, .hearts⟩, ⟨.three, .spades⟩] none = false) :=
  banco_drawThird_table [⟨.king, .hearts⟩, ⟨.three, .spades⟩] ⟨.eight, .clubs⟩ none

/-! ### Shoe composition (C5) -/

lemma oneDeck_length : oneDeck.length = 52 := by decide

lemma oneDeck_count (c : Card) : oneDeck.count c = 1 := by
  revert c
  decide

lemma freshDecks_length (n : Nat) : (freshDecks n).length = n * 52 := by
  induction n with
  | zero => simp [freshDecks]
  | succ k ih =>
    simp [freshDecks, ih, oneDeck_length]
    ring

lemma freshDecks_count (n : Nat) (c : Card) : (freshDecks n).count c = n := by
  induction n with
  | zero => simp [freshDecks]
  | succ k ih =>
    simp [freshDecks, List.count_append, ih, oneDeck_count]
    omega

lemma addDecks_empty_length (ρ : List Card → List Card) (hρ : ShuffleSpec ρ)
    (s : ShoeState) (he : s.cards = []) :
    (addDecks ρ s none).cards.length = s.num_decks * 52 := by
  simp only [addDecks, he, List.nil_append]
  rw [(hρ (freshDecks s.num_decks)).length_eq, freshDecks_length]

lemma addDecks_empty_count (ρ : List Card → List Card) (hρ : ShuffleSpec ρ)
    (s : ShoeState) (he : s.cards = []) (c : Card) :
    (addDecks ρ s none).cards.count c = s.num_decks := by
  simp only [addDecks, he, List.nil_append]
  rw [(hρ (freshDecks s.num_decks)).count_eq, freshDecks_count]

/-- C5: for every deck count ≥ 1 and every shuffle (any permutation), a
freshly constructed shoe — and a shoe refilled by `add_decks()` from the
empty pool, which is the only way the program ever refills — holds exactly
`deck_count × 52` cards with each of the 52 distinct rank/suit pairs
appearing exactly `deck_count` times. -/
theorem shoe_composition (d : Nat) (hd : 1 ≤ d)
    (ρ : List Card → List Card) (hρ : ShuffleSpec ρ) :
    (∃ s : ShoeState, Shoe.init ρ d = .ok s ∧ s.num_decks = d ∧
       s.cards.length = d * 52 ∧ ∀ c : Card, s.cards.count c = d)
    ∧ (∀ s : ShoeState, s.num_decks = d → s.cards = [] →
         (addDecks ρ s none).cards.length = d * 52 ∧
         ∀ c : Card, (addDecks ρ s none).cards.count c = d) := by
  constructor
  · refine ⟨addDecks ρ { cards := [], num_decks := d } none, ?_, ?_, ?_, ?_⟩
    · simp [Shoe.init, Nat.not_lt.mpr hd]
    · simp [addDecks]
    · simpa using addDecks_empty_length ρ hρ { cards := [], num_decks := d } rfl
    · intro c
      simpa using addDecks_empty_count ρ hρ { cards := [], num_decks := d } rfl c
  · intro s hnd he
    constructor
    · rw [addDecks_empty_length ρ hρ s he, hnd]
    · intro c
      rw [addDecks_empty_count ρ hρ s he c, hnd]

/-- C5 witness: one deck, identity shuffle. -/
theorem shoe_composition_witness :
    (1 : Nat) ≤ 1 ∧
    ((∃ s : ShoeState, Shoe.init id 1 = .ok s ∧ s.num_decks = 1 ∧
       s.cards.length = 1 * 52 ∧ ∀ c : Card, s.cards.count c = 1)
     ∧ (∀ s : ShoeState, s.num_decks = 1 → s.cards = [] →
         (addDecks id s none).cards.length = 1 * 52 ∧
         ∀ c : Card, (addDecks id s none).cards.count c = 1)) :=
  ⟨by decide, shoe_composition 1 (by decide) id (fun l => List.Perm.refl l)⟩

/-! ### Drawing from the shoe (C6) -/

lemma drawOne_ok (ρ : List Card → List Card) (hρ : ShuffleSpec ρ)
    (s : ShoeState) (hd : 1 ≤ s.num_decks) :
    ∃ c s' r, drawOne ρ s = (.ok c, s', r) ∧ s'.num_decks = s.num_decks ∧
      ((s.cards ≠ [] → r = 0 ∧ s'.cards.length + 1 = s.cards.length) ∧
       (s.cards = [] → r = 1 ∧ s'.cards.length + 1 = s.num_decks * 52)) := by
  by_cases he : s.cards = []
  · have he' : s.cards.isEmpty = true := by simp [he]
    have hlen : (addDecks ρ s none).cards.length = s.num_decks * 52 :=
      addDecks_empty_length ρ hρ s he
    have hne : (addDecks ρ s none).cards ≠ [] := by
      intro h0
      rw [h0] at hlen
      simp at hlen
      omega
    obtain ⟨c, hc⟩ : ∃ c, (addDecks ρ s none).cards.getLast? = some c := by
      rcases Option.isSome_iff_exists.mp (List.getLast?_isSome.mpr hne) with ⟨c, hc⟩
      exact ⟨c, hc⟩
    refine ⟨c, { addDecks ρ s none with
                  cards := (addDecks ρ s none).cards.dropLast }, 1, ?_, ?_, ?_, ?_⟩
    · simp only [drawOne, he', if_true, hc]
    · simp [addDecks]
    · intro hne'; exact absurd he hne'
    · intro _
      refine ⟨rfl, ?_⟩
      simp only [List.length_dropLast]
      omega
  · have he' : s.cards.isEmpty = false := by simpa using he
    obtain ⟨c, hc⟩ : ∃ c, s.cards.getLast? = some c := by
      rcases Option.isSome_iff_exists.mp (List.getLast?_isSome.mpr he) with ⟨c, hc⟩
      exact ⟨c, hc⟩
    have hpos : 1 ≤ s.cards.length := by
      cases h0 : s.cards with
      | nil => exact absurd h0 he
      | cons a t => simp [h0]
    refine ⟨c, { s with cards := s.cards.dropLast }, 0, ?_, rfl, ?_, ?_⟩
    · simp only [drawOne, he', Bool.false_eq_true, if_false, hc]
    · intro _
      refine ⟨rfl, ?_⟩
      simp only [List.length_dropLast]
      omega
    · intro h0; exact absurd h0 he

lemma drawCards_ok (ρ : List Card → List Card) (hρ : ShuffleSpec ρ) :
    ∀ (n : Nat) (s : ShoeState), 1 ≤ s.num_decks →
    ∃ cs s' r, drawCards ρ s n = (.ok cs, s', r) ∧ cs.length = n ∧
      s'.num_decks = s.num_decks ∧
      s'.cards.length + n = s.cards.length + r * (s.num_decks * 52) ∧
      (n ≤ s.cards.length → r = 0) ∧
      (s.cards.length < n →
        1 ≤ r ∧ s.cards.length + (r - 1) * (s.num_decks * 52) < n) := by
  intro n
  induction n with
  | zero =>
    intro s _
    refine ⟨[], s, 0, rfl, rfl, rfl, by simp, fun _ => rfl, fun h => ?_⟩
    omega
  | succ n ih =>
    intro s hd
    obtain ⟨c, s₁, r₁, heq1, hnd1, hstep⟩ := drawOne_ok ρ hρ s hd
    have hd1 : 1 ≤ s₁.num_decks := by omega
    obtain ⟨cs, s₂, r₂, heq2, hlen2, hnd2, hcons2, hr02, hlt2⟩ := ih s₁ hd1
    rw [hnd1] at hcons2 hlt2
    refine ⟨c :: cs, s₂, r₁ + r₂, ?_, ?_, ?_, ?_, ?_, ?_⟩
    · simp only [drawCards, heq1, heq2]
    · simp [hlen2]
    · rw [hnd2, hnd1]
    · by_cases he : s.cards = []
      · obtain ⟨hr1, hlen1⟩ := hstep.2 he
        subst hr1
        have h0 : s.cards.length = 0 := by simp [he]
        rw [Nat.add_mul, Nat.one_mul]
        generalize r₂ * (s.num_decks * 52) = X at hcons2 ⊢
        omega
      · obtain ⟨hr1, hlen1⟩ := hstep.1 he
        subst hr1
        rw [Nat.zero_add]
        generalize r₂ * (s.num_decks * 52) = X at hcons2 ⊢
        omega
    · intro hle
      have he : s.cards ≠ [] := by
        intro h0
        rw [h0] at hle
        simp at hle
      obtain ⟨hr1, hlen1⟩ := hstep.1 he
      have : r₂ = 0 := hr02 (by omega)
      omega
    · intro hlt
      by_cases he : s.cards = []
      · obtain ⟨hr1, hlen1⟩ := hstep.2 he
        subst hr1
        refine ⟨by omega, ?_⟩
        rw [he]
        simp only [List.length_nil, Nat.zero_add, Nat.add_sub_cancel_left]
        rcases Nat.eq_zero_or_pos r₂ with h0 | hpos
        · subst h0
          simp
        · have hlt1 : s₁.cards.length < n := by
            by_contra hge
            have := hr02 (Nat.le_of_not_lt hge)
            omega
          obtain ⟨_, hbound⟩ := hlt2 hlt1
          obtain ⟨k, rfl⟩ : ∃ k, r₂ = k + 1 := ⟨r₂ - 1, by omega⟩
          rw [Nat.succ_mul]
          simp only [Nat.add_sub_cancel] at hbound
          generalize k * (s.num_decks * 52) = X at hbound ⊢
          omega
      · obtain ⟨hr1, hlen1⟩ := hstep.1 he
        subst hr1
        have hne1 : 1 ≤ s.cards.length := by
          cases h0 : s.cards with
          | nil => exact absurd h0 he
          | cons a t => simp [h0]
        have hlt1 : s₁.cards.length < n := by omega
        obtain ⟨hr2pos, hbound⟩ := hlt2 hlt1
        refine ⟨by omega, ?_⟩
        rw [Nat.zero_add]
        generalize (r₂ - 1) * (s.num_decks * 52) = X at hbound ⊢
        omega

/-- C6: for every n ≥ 0 (and any shuffle permutation), `Shoe.draw_cards(n)`
never fails: it returns exactly n cards.  When the shoe held at least n
cards, no refill occurs and exactly n cards are removed; when the shoe is
exhausted mid-draw, refills occur — exactly one per exhaustion, i.e. the
refill count r is ≥ 1, large enough to supply the n cards, and not larger
(r−1 refills would not have sufficed) — and the total returned still equals
n.  The conservation equation relates the final pool to the initial pool
plus r refills of `num_decks × 52` cards. -/
theorem drawCards_spec (ρ : List Card → List Card) (hρ : ShuffleSpec ρ)
    (s : ShoeState) (hd : 1 ≤ s.num_decks) (n : Nat) :
    ∃ cs s' r, drawCards ρ s n = (.ok cs, s', r) ∧ cs.length = n ∧
      s'.num_decks = s.num_decks ∧
      s'.cards.length + n = s.cards.length + r * (s.num_decks * 52) ∧
      (n ≤ s.cards.length → r = 0 ∧ s'.cards.length + n = s.cards.length) ∧
      (s.cards.length < n →
        1 ≤ r ∧ n ≤ s.cards.length + r * (s.num_decks * 52) ∧
        s.cards.length + (r - 1) * (s.num_decks * 52) < n) := by
  obtain ⟨cs, s', r, heq, hlen, hnd, hcons, hr0, hlt⟩ := drawCards_ok ρ hρ n s hd
  refine ⟨cs, s', r, heq, hlen, hnd, hcons, ?_, ?_⟩
  · intro hle
    have h0 := hr0 hle
    subst h0
    simp only [Nat.zero_mul, Nat.add_zero] at hcons
    exact ⟨rfl, hcons⟩
  · intro hgt
    obtain ⟨h1, h2⟩ := hlt hgt
    exact ⟨h1, by omega, h2⟩

/-- C6 witness: drawing 2 from a 1-card, 1-deck shoe (one refill), applied
through `drawCards_spec` with the identity shuffle. -/
theorem drawCards_spec_witness :
    (1 : Nat) ≤ (ShoeState.mk [⟨.king, .hearts⟩] 1).num_decks ∧
    (∃ cs s' r,
      drawCards id (ShoeState.mk [⟨.king, .hearts⟩] 1) 2 = (.ok cs, s', r) ∧
      cs.length = 2 ∧
      s'.num_decks = (ShoeState.mk [⟨.king, .hearts⟩] 1).num_decks ∧
      s'.cards.length + 2 = (ShoeState.mk [⟨.king, .hearts⟩] 1).cards.length +
        r * ((ShoeState.mk [⟨.king, .hearts⟩] 1).num_decks * 52) ∧
      (2 ≤ (ShoeState.mk [⟨.king, .hearts⟩] 1).cards.length → r = 0 ∧
        s'.cards.length + 2 = (ShoeState.mk [⟨.king, .hearts⟩] 1).cards.length) ∧
      ((ShoeState.mk [⟨.king, .hearts⟩] 1).cards.length < 2 →
        1 ≤ r ∧ 2 ≤ (ShoeState.mk [⟨.king, .hearts⟩] 1).cards.length +
          r * ((ShoeState.mk [⟨.king, .hearts⟩] 1).num_decks * 52) ∧
        (ShoeState.mk [⟨.king, .hearts⟩] 1).cards.length +
          (r - 1) * ((ShoeState.mk [⟨.king, .hearts⟩] 1).num_decks * 52) < 2)) :=
  ⟨by decide,
   drawCards_spec id (fun l => List.Perm.refl l)
     (ShoeState.mk [⟨.king, .hearts⟩] 1) (by decide) 2⟩

/-! ### Round-engine claims -/

/-- C10: on a resolved round (round flag false, both hands present),
`game_result()` is a pure read: it returns the outcome determined by
comparing the two hand values, leaves the whole game state (shoe, hands,
flag) unchanged, and a repeated call returns the same thing. -/
theorem gameResult_pure (s : GameState) (hrun : s.game_running = false)
    (p b : List Card) (hp : s.punto = some p) (hb : s.banco = some b) :
    ∃ o, Game.gameResult s = (.ok o, s) ∧
      o = (if Hand.value p > Hand.value b then Outcome.punto
           else if Hand.value p < Hand.value b then Outcome.banco
           else Outcome.tie) ∧
      Game.gameResult (Game.gameResult s).2 = Game.gameResult s := by
  have h1 : Game.gameResult s =
      (.ok (if Hand.value p > Hand.value b then Outcome.punto
            else if Hand.value p < Hand.value b then Outcome.banco
            else Outcome.tie), s) := by
    simp [Game.gameResult, hrun, hp, hb]
  exact ⟨_, h1, rfl, by rw [h1]; exact h1⟩

/-- C10 witness: a concrete resolved state (punto 9 vs banco 5). -/
theorem gameResult_pure_witness :
    (GameState.mk false (some [⟨.four, .hearts⟩, ⟨.five, .spades⟩])
        (some [⟨.two, .hearts⟩, ⟨.three, .clubs⟩]) (ShoeState.mk [] 1)).game_running = false ∧
    (∃ o, Game.gameResult (GameState.mk false (some [⟨.four, .hearts⟩, ⟨.five, .spades⟩])
        (some [⟨.two, .hearts⟩, ⟨.three, .clubs⟩]) (ShoeState.mk [] 1)) =
        (.ok o, GameState.mk false (some [⟨.four, .hearts⟩, ⟨.five, .spades⟩])
          (some [⟨.two, .hearts⟩, ⟨.three, .clubs⟩]) (ShoeState.mk [] 1)) ∧
      o = (if Hand.value [⟨.four, .hearts⟩, ⟨.five, .spades⟩] >
              Hand.value [⟨.two, .hearts⟩, ⟨.three, .clubs⟩] then Outcome.punto
           else if Hand.value [⟨.four, .hearts⟩, ⟨.five, .spades⟩] <
              Hand.value [⟨.two, .hearts⟩, ⟨.three, .clubs⟩] then Outcome.banco
           else Outcome.tie) ∧
      Game.gameResult (Game.gameResult (GameState.mk false
          (some [⟨.four, .hearts⟩, ⟨.five, .spades⟩])
          (some [⟨.two, .hearts⟩, ⟨.three, .clubs⟩]) (ShoeState.mk [] 1))).2 =
        Game.gameResult (GameState.mk false (some [⟨.four, .hearts⟩, ⟨.five, .spades⟩])
          (some [⟨.two, .hearts⟩, ⟨.three, .clubs⟩]) (ShoeState.mk [] 1))) :=
  ⟨rfl, gameResult_pure _ rfl _ _ rfl rfl⟩

lemma isNatural_true (s : GameState) (hrun : s.game_running = true)
    (p b : List Card) (hp : s.punto = some p) (hb : s.banco = some b)
    (hnat : (Hand.isNatural p || Hand.isNatural b) = true) :
    Game.isNatural s = (.ok true, { s with game_running := false }) := by
  by_cases hnp : Hand.isNatural p
  · simp [Game.isNatural, hrun, hp, hnp]
  · have hnb : Hand.isNatural b = true := by
      rcases Bool.or_eq_true_iff.mp hnat with h | h
      · exact absurd h hnp
      · exact h
    simp [Game.isNatural, hrun, hp, hb, hnp, hnb]

/-- C9: calling `draw_thirds()` on an active round that holds a natural is
not atomic: the internal `is_natural()` call closes the round before the
`NaturalPresent` error is raised, so the error leaves `round_active` false
with both hands and the shoe untouched, and a subsequent `game_result()`
succeeds instead of failing with `RoundInProgress`. -/
theorem drawThirds_natural_closes_round (ρ : List Card → List Card)
    (s : GameState) (hrun : s.game_running = true)
    (p b : List Card) (hp : s.punto = some p) (hb : s.banco = some b)
    (hnat : (Hand.isNatural p || Hand.isNatural b) = true) :
    ∃ s', Game.drawThirds ρ s = (.error .naturalPresent, s') ∧
      s'.game_running = false ∧ s'.punto = s.punto ∧ s'.banco = s.banco ∧
      s'.shoe = s.shoe ∧ ∃ o, Game.gameResult s' = (.ok o, s') := by
  have hN := isNatural_true s hrun p b hp hb hnat
  refine ⟨{ s with game_running := false }, ?_, rfl, rfl, rfl, rfl, ?_⟩
  · simp [Game.drawThirds, hrun, hN]
  · refine ⟨if Hand.value p > Hand.value b then Outcome.punto
            else if Hand.value p < Hand.value b then Outcome.banco
            else Outcome.tie, ?_⟩
    simp [Game.gameResult, hp, hb]

/-- C9 witness: punto natural 8 against banco 5; `draw_thirds()` fails with
the natural error but leaves a closed round on which `game_result()` works. -/
theorem drawThirds_natural_closes_round_witness :
    (GameState.mk true (some [⟨.four, .hearts⟩, ⟨.four, .spades⟩])
        (some [⟨.two, .hearts⟩, ⟨.three, .clubs⟩]) (ShoeState.mk [] 1)).game_running = true ∧
    (Hand.isNatural [⟨.four, .hearts⟩, ⟨.four, .spades⟩]
      || Hand.isNatural [⟨.two, .hearts⟩, ⟨.three, .clubs⟩]) = true ∧
    (∃ s', Game.drawThirds id (GameState.mk true
          (some [⟨.four, .hearts⟩, ⟨.four, .spades⟩])
          (some [⟨.two, .hearts⟩, ⟨.three, .clubs⟩]) (ShoeState.mk [] 1)) =
        (.error .naturalPresent, s') ∧
      s'.game_running = false ∧
      s'.punto = (GameState.mk true (some [⟨.four, .hearts⟩, ⟨.four, .spades⟩])
          (some [⟨.two, .hearts⟩, ⟨.three, .clubs⟩]) (ShoeState.mk [] 1)).punto ∧
      s'.banco = (GameState.mk true (some [⟨.four, .hearts⟩, ⟨.four, .spades⟩])
          (some [⟨.two, .hearts⟩, ⟨.three, .clubs⟩]) (ShoeState.mk [] 1)).banco ∧
      s'.shoe = (GameState.mk true (some [⟨.four, .hearts⟩, ⟨.four, .spades⟩])
          (some [⟨.two, .hearts⟩, ⟨.three, .clubs⟩]) (ShoeState.mk [] 1)).shoe ∧
      ∃ o, Game.gameResult s' = (.ok o, s')) :=
  ⟨rfl, by decide,
   drawThirds_natural_closes_round id _ rfl _ _ rfl rfl (by decide)⟩

/-- C1 counterexample: with punto dealt a natural 8 and the round active,
`is_natural()` returns true and closes the round, but the subsequent
`draw_thirds()` call fails with the `Game is not running.` error
(`gameNotRunning`), not with the natural-present error, contradicting the
claim that it fails with `NaturalPresent`. -/
theorem natural_then_drawThirds_counterexample :
    Game.isNatural (GameState.mk true (some [⟨.four, .hearts⟩, ⟨.four, .spades⟩])
        (some [⟨.two, .hearts⟩, ⟨.three, .clubs⟩]) (ShoeState.mk [] 1)) =
      (.ok true, GameState.mk false (some [⟨.four, .hearts⟩, ⟨.four, .spades⟩])
        (some [⟨.two, .hearts⟩, ⟨.three, .clubs⟩]) (ShoeState.mk [] 1)) ∧
    Game.drawThirds id (GameState.mk false (some [⟨.four, .hearts⟩, ⟨.four, .spades⟩])
        (some [⟨.two, .hearts⟩, ⟨.three, .clubs⟩]) (ShoeState.mk [] 1)) =
      (.error .gameNotRunning,
       GameState.mk false (some [⟨.four, .hearts⟩, ⟨.four, .spades⟩])
        (some [⟨.two, .hearts⟩, ⟨.three, .clubs⟩]) (ShoeState.mk [] 1)) ∧
    Err.gameNotRunning ≠ Err.naturalPresent := by
  refine ⟨rfl, rfl, by decide⟩

/-- C1 (amended): when the dealt hands contain a natural, `is_natural()`
(the source's `check_natural`) returns true and leaves the round flag
false; a subsequent `draw_thirds()` call then fails — but with the
`NoActiveRound` error (`Game is not running.`), because the round is
already closed, not with the `NaturalPresent` error. -/
theorem natural_then_drawThirds_not_running (s : GameState)
    (hrun : s.game_running = true)
    (p b : List Card) (hp : s.punto = some p) (hb : s.banco = some b)
    (hnat : (Hand.isNatural p || Hand.isNatural b) = true) :
    ∃ s', Game.isNatural s = (.ok true, s') ∧ s'.game_running = false ∧
      ∀ ρ : List Card → List Card,
        Game.drawThirds ρ s' = (.error .gameNotRunning, s') := by
  refine ⟨{ s with game_running := false },
          isNatural_true s hrun p b hp hb hnat, rfl, ?_⟩
  intro ρ
  simp [Game.drawThirds]

/-- C1 witness: the same natural state, run through the amended theorem. -/
theorem natural_then_drawThirds_not_running_witness :
    (GameState.mk true (some [⟨.four, .hearts⟩, ⟨.four, .spades⟩])
        (some [⟨.two, .hearts⟩, ⟨.three, .clubs⟩]) (ShoeState.mk [] 1)).game_running = true ∧
    (Hand.isNatural [⟨.four, .hearts⟩, ⟨.four, .spades⟩]
      || Hand.isNatural [⟨.two, .hearts⟩, ⟨.three, .clubs⟩]) = true ∧
    (∃ s', Game.isNatural (GameState.mk true
          (some [⟨.four, .hearts⟩, ⟨.four, .spades⟩])
          (some [⟨.two, .hearts⟩, ⟨.three, .clubs⟩]) (ShoeState.mk [] 1)) =
        (.ok true, s') ∧ s'.game_running = false ∧
      ∀ ρ : List Card → List Card,
        Game.drawThirds ρ s' = (.error .gameNotRunning, s')) :=
  ⟨rfl, by decide,
   natural_then_drawThirds_not_running _ rfl _ _ rfl rfl (by decide)⟩

lemma drawCards_one (ρ : List Card → List Card) (hρ : ShuffleSpec ρ)
    (sh : ShoeState) (hd : 1 ≤ sh.num_decks) :
    ∃ c sh' r, drawCards ρ sh 1 = (.ok [c], sh', r) ∧
      sh'.num_decks = sh.num_decks := by
  obtain ⟨cs, sh', r, heq, hlen, hnd, _⟩ := drawCards_ok ρ hρ 1 sh hd
  match cs, hlen with
  | [c], _ => exact ⟨c, sh', r, heq, hnd⟩

lemma append_third (p : List Card) (hp : p.length = 2) (c : Card) :
    (p ++ [c])[2]? = some c := by
  rw [List.getElem?_append_right (by omega)]
  simp [hp]

/-- C4: on an active round with no natural and both hands of size 2,
`draw_thirds()` succeeds, closes the round, and applies exactly the
punto-then-banco sequence: its record list is, in draw order, one of `[]`,
`[(punto, c)]`, `[(punto, c), (banco, c')]`, `[(banco, c)]`, with a punto
record iff `Punto.draw_third()` held, in which case the banco decision is
made against the punto third card, and otherwise a banco record iff
`Banco.draw_third(None)` held; each recorded card is appended to the
matching hand. -/
theorem drawThirds_sequence (ρ : List Card → List Card) (hρ : ShuffleSpec ρ)
    (s : GameState) (hrun : s.game_running = true)
    (p b : List Card) (hp : s.punto = some p) (hb : s.banco = some b)
    (hp2 : p.length = 2) (hb2 : b.length = 2)
    (hnp : Hand.isNatural p = false) (hnb : Hand.isNatural b = false)
    (hd : 1 ≤ s.shoe.num_decks) :
    ∃ recs s', Game.drawThirds ρ s = (.ok recs, s') ∧ s'.game_running = false ∧
      ((Punto.drawThird p = false ∧ Banco.drawThird b none = false ∧
        recs = [] ∧ s'.punto = some p ∧ s'.banco = some b)
       ∨ (∃ c, Punto.drawThird p = true ∧ Banco.drawThird b (some c) = false ∧
           recs = [(HandId.punto, c)] ∧
           s'.punto = some (p ++ [c]) ∧ s'.banco = some b)
       ∨ (∃ c c', Punto.drawThird p = true ∧ Banco.drawThird b (some c) = true ∧
           recs = [(HandId.punto, c), (HandId.banco, c')] ∧
           s'.punto = some (p ++ [c]) ∧ s'.banco = some (b ++ [c']))
       ∨ (∃ c, Punto.drawThird p = false ∧ Banco.drawThird b none = true ∧
           recs = [(HandId.banco, c)] ∧
           s'.punto = some p ∧ s'.banco = some (b ++ [c]))) := by
  have hN : Game.isNatural s = (.ok false, s) := by
    simp [Game.isNatural, hrun, hp, hb, hnp, hnb]
  by_cases hpd : Punto.drawThird p = true
  · obtain ⟨c, sh₁, r₁, hd1, hnd1⟩ := drawCards_one ρ hρ s.shoe hd
    have h3 : (Hand.addCards p [c])[2]? = some c := append_third p hp2 c
    by_cases hbd : Banco.drawThird b (some c) = true
    · obtain ⟨c', sh₂, r₂, hd2, hnd2⟩ :=
        drawCards_one ρ hρ sh₁ (by rw [hnd1]; exact hd)
      have h3b : (Hand.addCards b [c'])[2]? = some c' := append_third b hb2 c'
      refine ⟨[(HandId.punto, c), (HandId.banco, c')],
              { s with punto := some (Hand.addCards p [c]),
                       banco := some (Hand.addCards b [c']),
                       shoe := sh₂, game_running := false }, ?_, rfl, ?_⟩
      · simp only [Game.drawThirds, hrun, if_true, hN, hp, hb, hpd, hd1, h3,
                   hbd, hd2, h3b]
      · exact Or.inr (Or.inr (Or.inl ⟨c, c', hpd, hbd, rfl, rfl, rfl⟩))
    · have hbd' : Banco.drawThird b (some c) = false := by
        simpa using hbd
      refine ⟨[(HandId.punto, c)],
              { s with punto := some (Hand.addCards p [c]),
                       shoe := sh₁, game_running := false }, ?_, rfl, ?_⟩
      · simp only [Game.drawThirds, hrun, if_true, hN, hp, hb, hpd, hd1, h3,
                   hbd', Bool.false_eq_true, if_false]
      · exact Or.inr (Or.inl ⟨c, hpd, hbd', rfl, rfl, hb⟩)
  · have hpd' : Punto.drawThird p = false := by simpa using hpd
    by_cases hbd : Banco.drawThird b none = true
    · obtain ⟨c, sh₁, r₁, hd1, hnd1⟩ := drawCards_one ρ hρ s.shoe hd
      have h3b : (Hand.addCards b [c])[2]? = some c := append_third b hb2 c
      refine ⟨[(HandId.banco, c)],
              { s with banco := some (Hand.addCards b [c]),
                       shoe := sh₁, game_running := false }, ?_, rfl, ?_⟩
      · simp only [Game.drawThirds, hrun, if_true, hN, hp, hb, hpd',
                   Bool.false_eq_true, if_false, hbd, hd1, h3b]
      · exact Or.inr (Or.inr (Or.inr ⟨c, hpd', hbd, rfl, hp, rfl⟩))
    · have hbd' : Banco.drawThird b none = false := by simpa using hbd
      refine ⟨[], { s with game_running := false }, ?_, rfl, ?_⟩
      · simp only [Game.drawThirds, hrun, if_true, hN, hp, hb, hpd', hbd',
                   Bool.false_eq_true, if_false]
      · exact Or.inl ⟨hpd', hbd', rfl, hp, hb⟩

/-- C4 witness: punto [2,3] (value 5) and banco [2,2] (value 4) over a
3-card shoe, via `drawThirds_sequence` with the identity shuffle. -/
theorem drawThirds_sequence_witness :
    (GameState.mk true (some [⟨.two, .hearts⟩, ⟨.three, .hearts⟩])
        (some [⟨.two, .clubs⟩, ⟨.two, .spades⟩])
        (ShoeState.mk [⟨.king, .hearts⟩, ⟨.four, .hearts⟩, ⟨.four, .spades⟩] 1)).game_running = true ∧
    Hand.isNatural [⟨.two, .hearts⟩, ⟨.three, .hearts⟩] = false ∧
    Hand.isNatural [⟨.two, .clubs⟩, ⟨.two, .spades⟩] = false ∧
    (∃ recs s',
      Game.drawThirds id (GameState.mk true
          (some [⟨.two, .hearts⟩, ⟨.three, .hearts⟩])
          (some [⟨.two, .clubs⟩, ⟨.two, .spades⟩])
          (ShoeState.mk [⟨.king, .hearts⟩, ⟨.four, .hearts⟩, ⟨.four, .spades⟩] 1)) =
        (.ok recs, s') ∧
      s'.game_running = false ∧
      ((Punto.drawThird [⟨.two, .hearts⟩, ⟨.three, .hearts⟩] = false ∧
        Banco.drawThird [⟨.two, .clubs⟩, ⟨.two, .spades⟩] none = false ∧
        recs = [] ∧ s'.punto = some [⟨.two, .hearts⟩, ⟨.three, .hearts⟩] ∧
        s'.banco = some [⟨.two, .clubs⟩, ⟨.two, .spades⟩])
       ∨ (∃ c, Punto.drawThird [⟨.two, .hearts⟩, ⟨.three, .hearts⟩] = true ∧
           Banco.drawThird [⟨.two, .clubs⟩, ⟨.two, .spades⟩] (some c) = false ∧
           recs = [(HandId.punto, c)] ∧
           s'.punto = some ([⟨.two, .hearts⟩, ⟨.three, .hearts⟩] ++ [c]) ∧
           s'.banco = some [⟨.two, .clubs⟩, ⟨.two, .spades⟩])
       ∨ (∃ c c', Punto.drawThird [⟨.two, .hearts⟩, ⟨.three, .hearts⟩] = true ∧
           Banco.drawThird [⟨.two, .clubs⟩, ⟨.two, .spades⟩] (some c) = true ∧
           recs = [(HandId.punto, c), (HandId.banco, c')] ∧
           s'.punto = some ([⟨.two, .hearts⟩, ⟨.three, .hearts⟩] ++ [c]) ∧
           s'.banco = some ([⟨.two, .clubs⟩, ⟨.two, .spades⟩] ++ [c']))
       ∨ (∃ c, Punto.drawThird [⟨.two, .hearts⟩, ⟨.three, .hearts⟩] = false ∧
           Banco.drawThird [⟨.two, .clubs⟩, ⟨.two, .spades⟩] none = true ∧
           recs = [(HandId.banco, c)] ∧
           s'.punto = some [⟨.two, .hearts⟩, ⟨.three, .hearts⟩] ∧
           s'.banco = some ([⟨.two, .clubs⟩, ⟨.two, .spades⟩] ++ [c])))) :=
  ⟨rfl, by decide, by decide,
   drawThirds_sequence id (fun l => List.Perm.refl l) _ rfl _ _ rfl rfl
     (by decide) (by decide) (by decide) (by decide) (by decide)⟩
